import Mathlib

/-!
Verification of the supervisor core of ckpool (src/ckpool.c) against its
natural-language specification.  The C code is shallowly embedded: each C
function that the claims touch is translated into an executable Lean
definition over explicit state, and the claims are settled as theorems
about those definitions.

Bytes are modelled as Nat (0 is the NUL terminator, 10 is the newline
byte).  A C buffer is modelled as the list of its meaningful bytes: for
connsock buffers this is the valid region maintained by read_socket_line
(the code keeps buf[bufofs] = NUL after every write, so bytes past the
valid region are invisible to strchr and to the carry-over relocation).
File descriptors, pids and signal numbers are Int, matching the C types.
Calls into the operating system (kill, select, recv, fopen) are modelled
by explicit environment parameters recording their results, and side
effects (signals sent, files unlinked, replies written) are returned as
action lists in program order.
-/

namespace Ckpool

/-- Signal numbers used by the supervisor (Linux numbering). -/
def SIGKILL : Int := 9

/-- SIGUSR1, the graceful-shutdown signal sent to children first. -/
def SIGUSR1 : Int := 10

/-- SIGTERM, the termination signal handled by sighandler. -/
def SIGTERM : Int := 15

/-- Syslog bounds used by the loglevel validations. -/
def LOG_EMERG : Int := 0

/-- LOG_DEBUG, the highest syslog level. -/
def LOG_DEBUG : Int := 7

/-- Model of connsock_t as used by read_socket_line: file descriptor plus
the line buffer and the carry-over bookkeeping fields. -/
structure connsock where
  fd : Int
  buf : List Nat
  bufofs : Nat
  buflen : Nat
deriving Repr, DecidableEq

/-- Model of strchr(buf, newline) on a NUL-terminated C string: index of
the first newline byte (10) occurring before any NUL byte (0), if any. -/
def findNLAux : List Nat → Nat → Option Nat
  | [], _ => none
  | b :: rest, i =>
      if b = 0 then none
      else if b = 10 then some i
      else findNLAux rest (i + 1)

/-- Index of the first newline in the buffer, scanning as strchr does. -/
def findNL (l : List Nat) : Option Nat := findNLAux l 0

/-- Outcome of the read loop of read_socket_line.
line: the loop broke out with a complete line (eom set, no more data
immediately available); carries the accumulated buffer, the newline index
and the unread chunks.
timeo: wait_read_select timed out with no complete line (ret = 0).
rerr: recv returned less than 1 (ret = -1); carries the buffer
accumulated before the failing recv. -/
inductive RslRes where
  | line (buf : List Nat) (i : Nat) (rest : List (List Nat))
  | timeo (buf : List Nat) (rest : List (List Nat))
  | rerr (buf : List Nat) (rest : List (List Nat))
deriving Repr, DecidableEq

/-- The while(42) read loop of read_socket_line.  The available input is a
list of chunks: each successful recv returns the next chunk; an empty
chunk models recv returning at most 0 (peer closed / error); exhausted
chunks model wait_read_select reporting no data (timeout when no line is
held yet, drain complete when one is).  Each iteration recomputes eom by
strchr from the start of the buffer, exactly as the C does. -/
def rsl_loop : List Nat → Option Nat → List (List Nat) → RslRes
  | buf, some i, [] => .line buf i []
  | buf, none, [] => .timeo buf []
  | buf, _, c :: rest =>
      if c.isEmpty then .rerr buf rest
      else rsl_loop (buf ++ c) (findNL (buf ++ c)) rest

/-- Entry branch of read_socket_line (src/ckpool.c lines 324-333): when
buflen is nonzero, the pending carry-over bytes are relocated by memmove
to the start of the buffer, the rest is zeroed, and eom is searched by
strchr in the relocated bytes; otherwise the valid region is the first
bufofs bytes and eom starts out NULL. -/
def rsl_entry (cs : connsock) : List Nat × Option Nat :=
  if cs.buflen ≠ 0 then
    let carry := (cs.buf.drop cs.bufofs).take cs.buflen
    (carry, findNL carry)
  else
    (cs.buf.take cs.bufofs, none)

/-- Translation of read_socket_line (src/ckpool.c lines 315-380).  Returns
the C return value, the updated connsock and the chunks left unread.  On
success ret is the newline index, the newline byte is overwritten with
NUL, buflen is set to the carry-over count and bufofs to the offset where
the carry-over begins.  On ret < 0 the buffer is freed and, when fd > 0,
the socket is closed and fd set to -1; on ret = 0 (select timeout with no
complete line) the state is left as accumulated and the fd stays open. -/
def read_socket_line (cs : connsock) (chunks : List (List Nat)) :
    Int × connsock × List (List Nat) :=
  if cs.fd < 0 then
    (-1, { cs with buf := [] }, chunks)
  else
    match rsl_loop (rsl_entry cs).1 (rsl_entry cs).2 chunks with
    | .line buf i rest =>
        ((i : Int),
         { fd := cs.fd, buf := buf.set i 0,
           bufofs := if buf.length - i - 1 ≠ 0 then i + 1 else 0,
           buflen := buf.length - i - 1 },
         rest)
    | .timeo buf rest =>
        (0, { fd := cs.fd, buf := buf, bufofs := buf.length, buflen := 0 }, rest)
    | .rerr buf rest =>
        (-1,
         { fd := if cs.fd > 0 then -1 else cs.fd, buf := [],
           bufofs := buf.length, buflen := 0 },
         rest)

/-- Model of empty_buffer (src/ckpool.c lines 307-310). -/
def empty_buffer (cs : connsock) : connsock :=
  { cs with buflen := 0, bufofs := 0 }

/-- State of one ckmsgq: the linked list of undelivered messages plus the
history of enqueued and delivered payloads, recorded for specification
purposes (the C keeps only msgs). -/
structure QState (α : Type) where
  msgs : List α
  enqueued : List α
  delivered : List α
deriving Repr, DecidableEq

/-- Translation of ckmsgq_add (src/ckpool.c lines 153-163): under the
queue lock, DL_APPEND appends the new message at the tail and the
condition variable is signalled. -/
def ckmsgq_add {α : Type} (q : QState α) (a : α) : QState α :=
  { q with msgs := q.msgs ++ [a], enqueued := q.enqueued ++ [a] }

/-- Translation of one wakeup of the consumer loop in ckmsg_queue
(src/ckpool.c lines 113-133): under the lock the head message, if any, is
detached by DL_DELETE; after releasing the lock it is handed to the
consumer function exactly once (recorded in delivered) and freed.  An
empty list corresponds to the timed wait lapsing and the loop
continuing. -/
def ckmsg_queue_step {α : Type} (q : QState α) : QState α :=
  match q.msgs with
  | [] => q
  | m :: rest => { q with msgs := rest, delivered := q.delivered ++ [m] }

/-- Interleaving of producers (ckmsgq_add) and the consumer thread
(ckmsg_queue wakeups) on one queue. -/
inductive QEvent (α : Type) where
  | enq (a : α)
  | wake
deriving Repr, DecidableEq

/-- Run a sequence of interleaved queue events. -/
def runQ {α : Type} : QState α → List (QEvent α) → QState α
  | q, [] => q
  | q, .enq a :: evs => runQ (ckmsgq_add q a) evs
  | q, .wake :: evs => runQ (ckmsg_queue_step q) evs

/-- Translation of kill_pid (src/ckpool.c lines 176-183).  sys models the
kill(2) system call; the Bool records whether the system call was
invoked at all. -/
def kill_pid_call (sys : Int → Int → Int) (pid sig : Int) : Int × Bool :=
  if pid < 1 then (-1, false) else (sys pid sig, true)

/-- Return value of kill_pid as the C callers see it. -/
def kill_pid (sys : Int → Int → Int) (pid sig : Int) : Int :=
  (kill_pid_call sys pid sig).1

/-- Environment of one write_pid call: whether stat succeeds on the path,
whether fopen for reading succeeds, the pid parsed by fscanf (none when
the content is unparseable), whether fopen for writing succeeds, and the
kill(2) model used for the liveness probe and SIGKILL. -/
structure PidEnv where
  fileExists : Bool
  openReadOk : Bool
  filePid : Option Int
  openWriteOk : Bool
  sys : Int → Int → Int

/-- Result of write_pid: the C boolean, the pid now stored in the file (if
it was (re)written) and the pid that was sent SIGKILL, if any. -/
structure WritePidRes where
  ok : Bool
  written : Option Int
  sigkilled : Option Int
deriving Repr, DecidableEq

/-- Tail of write_pid (src/ckpool.c lines 638-646): fopen(path, "we") and
write the new pid into the file. -/
def write_pid_finish (env : PidEnv) (pid : Int) (killed : Option Int) : WritePidRes :=
  if env.openWriteOk then ⟨true, some pid, killed⟩ else ⟨false, none, killed⟩

/-- Translation of write_pid (src/ckpool.c lines 606-647). -/
def write_pid (killold : Bool) (env : PidEnv) (pid : Int) : WritePidRes :=
  if env.fileExists then
    if !env.openReadOk then ⟨false, none, none⟩
    else
      match env.filePid with
      | some oldpid =>
          if kill_pid env.sys oldpid 0 = 0 then
            if !killold then ⟨false, none, none⟩
            else if kill_pid env.sys oldpid SIGKILL ≠ 0 then ⟨false, none, some oldpid⟩
            else write_pid_finish env pid (some oldpid)
          else write_pid_finish env pid none
      | none => write_pid_finish env pid none
  else write_pid_finish env pid none

/-- Translation of write_namepid (src/ckpool.c lines 674-682): when
write_pid fails the process quits with exit code 1, modelled as Except
with the exit code. -/
def write_namepid (killold : Bool) (env : PidEnv) (pid : Int) :
    Except Nat WritePidRes :=
  if (write_pid killold env pid).ok then .ok (write_pid killold env pid)
  else .error 1

/-- Mode and configuration flags collected by the getopt_long loop of
main, with the defaults set before the loop runs. -/
structure CkOpts where
  standalone : Bool := false
  btcsolo : Bool := false
  proxy : Bool := false
  passthrough : Bool := false
  handover : Bool := false
  killold : Bool := false
  logshares : Bool := false
  loglevel : Int := 5
  config : Option String := none
  ckdb_name : Option String := none
  grpnam : Option String := none
  name : Option String := none
  ckdb_sockdir : Option String := none
  socket_dir : Option String := none
deriving Repr, DecidableEq

/-- One parsed command-line option, mirroring the option characters of
the getopt_long string ABc:d:g:HhkLl:n:PpS:s:. -/
inductive Opt where
  | A
  | B
  | c (path : String)
  | d (s : String)
  | g (s : String)
  | H
  | h
  | k
  | L
  | l (n : Int)
  | n (s : String)
  | P
  | p
  | S (s : String)
  | s (path : String)
deriving Repr, DecidableEq

/-- Translation of one case of the getopt_long switch in main
(src/ckpool.c lines 1066-1140).  quit(code, ...) is modelled as
Except.error code; case h prints usage and exits 0. -/
def parse_opt (ckp : CkOpts) : Opt → Except Nat CkOpts
  | .A => .ok { ckp with standalone := true }
  | .B =>
      if ckp.proxy || ckp.passthrough then .error 1
      else .ok { ckp with btcsolo := true, standalone := true }
  | .c path => .ok { ckp with config := some path }
  | .d s => .ok { ckp with ckdb_name := some s }
  | .g s => .ok { ckp with grpnam := some s }
  | .H => .ok { ckp with handover := true, killold := true }
  | .h => .error 0
  | .k => .ok { ckp with killold := true }
  | .L => .ok { ckp with logshares := true }
  | .l n =>
      if n < LOG_EMERG || n > LOG_DEBUG then .error 1
      else .ok { ckp with loglevel := n }
  | .n s => .ok { ckp with name := some s }
  | .P =>
      if ckp.proxy then .error 1
      else .ok { ckp with standalone := true, proxy := true, passthrough := true }
  | .p =>
      if ckp.passthrough then .error 1
      else .ok { ckp with proxy := true }
  | .S s => .ok { ckp with ckdb_sockdir := some s }
  | .s path => .ok { ckp with socket_dir := some path }

/-- The getopt_long loop: options are processed left to right; the first
quit aborts parsing with that exit code. -/
def parse_opts (ckp : CkOpts) : List Opt → Except Nat CkOpts
  | [] => .ok ckp
  | o :: rest =>
      match parse_opt ckp o with
      | .ok ckp2 => parse_opts ckp2 rest
      | .error e => .error e

/-- Prefix test on character lists, first argument the pattern. -/
def strPre : List Char → List Char → Bool
  | [], _ => true
  | _ :: _, [] => false
  | c :: cs, b :: bs => c == b && strPre cs bs

/-- Modelled from the spec: cmdmatch comes from libckpool.c, which is not
under src/.  Per the spec command table, a received buffer matches a
command by prefix (so a buffer of the form loglevel=N matches the
loglevel command). -/
def cmdmatch (buf cmd : String) : Bool :=
  strPre cmd.toList buf.toList

/-- Externally visible actions of one listener iteration, in program
order. -/
inductive LAct where
  | sendMsg (s : String)
  | sendFdA (fd : Int)
  | closeFd (fd : Int)
  | setLoglevel (n : Int)
  | bcast (s : String)
  | forkRestart
  | closeUnixSock
deriving Repr, DecidableEq

/-- Translation of the body of one listener iteration (src/ckpool.c lines
228-293): given the buffer received on the accepted socket sockd (none
models recv_unix_msg failure), the result of send_procmsg to the
connector (connfd), the result of get_fd on it (newfd), and the sscanf
result for a loglevel command, produce the list of externally visible
actions in order, and true when the listener loops (goto retry) or false
when it leaves the thread (goto out, closing the listener socket). -/
def listener_handle (sockd : Int) (buf : Option String) (connfd newfd : Int)
    (scanned : Option Int) : List LAct × Bool :=
  match buf with
  | none => ([.sendMsg "failed", .closeFd sockd], true)
  | some s =>
      if cmdmatch s "shutdown" then
        ([.sendMsg "exiting", .closeUnixSock], false)
      else if cmdmatch s "ping" then
        ([.sendMsg "pong", .closeFd sockd], true)
      else if cmdmatch s "loglevel" then
        match scanned with
        | none => ([.sendMsg "Failed", .closeFd sockd], true)
        | some lvl =>
            if lvl < LOG_EMERG || lvl > LOG_DEBUG then
              ([.sendMsg "Invalid", .closeFd sockd], true)
            else
              ([.setLoglevel lvl, .bcast s, .sendMsg "success", .closeFd sockd], true)
      else if cmdmatch s "getfd" then
        if connfd > 0 then
          if newfd > 0 then
            ([.sendFdA newfd, .closeFd newfd, .closeFd connfd, .closeFd sockd], true)
          else
            ([.closeFd connfd, .closeFd sockd], true)
        else
          ([.closeFd sockd], true)
      else if cmdmatch s "restart" then
        ([.forkRestart, .closeFd sockd], true)
      else
        ([.sendMsg "unknown", .closeFd sockd], true)

/-- Externally visible actions of the teardown code paths, in program
order. -/
inductive TAct where
  | ignoreSig (sig : Int)
  | cancelJoin (thread : String)
  | cancelOnly (thread : String)
  | signalChild (pid sig : Int)
  | sleepSec (n : Nat)
  | exitCode (code : Int)
  | unlink (path : String)
  | deallocState
deriving Repr, DecidableEq

/-- Recognizer for file-deletion actions. -/
def isUnlink : TAct → Bool
  | .unlink _ => true
  | _ => false

/-- Pid file path written by write_namepid and removed by rm_namepid:
socket_dir followed by the process name and the .pid suffix. -/
def pid_path (socket_dir processname : String) : String :=
  socket_dir ++ processname ++ ".pid"

/-- Translation of rm_namepid (src/ckpool.c lines 684-690) as its
filesystem action. -/
def rm_namepid (socket_dir processname : String) : TAct :=
  .unlink (pid_path socket_dir processname)

/-- Translation of __shutdown_children (src/ckpool.c lines 800-815):
cancel and join the watchdog, then for every child whose pid passes the
kill_pid liveness probe, send it sig through kill_pid.  alive models the
result kill(pid, 0) = 0 for pids at least 1. -/
def shutdown_children_acts (pids : List Int) (alive : Int → Bool) (sig : Int) :
    List TAct :=
  TAct.cancelJoin "watchdog" ::
    pids.flatMap (fun pid =>
      if kill_pid (fun p _ => if alive p then 0 else -1) pid 0 = 0 then
        [TAct.signalChild pid sig]
      else [])

/-- Translation of sighandler (src/ckpool.c lines 824-840): ignore the
received signal and SIGTERM, cancel and join the watchdog, signal the
live children with SIGUSR1, sleep one second, signal those still alive
with SIGKILL, cancel the listener thread, exit 0.  alive1 and alive2 are
the liveness probe results before and after the sleep. -/
def sighandler_acts (pids : List Int) (alive1 alive2 : Int → Bool) (sig : Int) :
    List TAct :=
  [TAct.ignoreSig sig, TAct.ignoreSig SIGTERM, TAct.cancelJoin "watchdog"]
    ++ shutdown_children_acts pids alive1 SIGUSR1
    ++ [TAct.sleepSec 1]
    ++ shutdown_children_acts pids alive2 SIGKILL
    ++ [TAct.cancelOnly "listener", TAct.exitCode 0]

/-- Translation of clean_up (src/ckpool.c lines 771-781): remove the pid
file of the main process instance (processname "main") and free the
supervisor state; run only on the listener-initiated shutdown path of
main, not by sighandler. -/
def clean_up_acts (socket_dir : String) : List TAct :=
  [rm_namepid socket_dir "main", TAct.deallocState]

/-- Outcome of one watchdog iteration. -/
inductive WatchdogOut where
  | shutdownExited
  | shutdownStorm
  | relaunch
  | shutdownUnknown
deriving Repr, DecidableEq

/-- Translation of one iteration of the watchdog loop (src/ckpool.c lines
1000-1024): known tells whether child_by_pid found the reaped pid,
wifexited is WIFEXITED(status), relaunch_t is time(NULL) at this
iteration and last_relaunch_t the recorded time of the previous
relaunch.  Returns the outcome and the updated last_relaunch_t. -/
def watchdog_step (known wifexited : Bool) (relaunch_t last_relaunch_t : Int) :
    WatchdogOut × Int :=
  if known && wifexited then
    (.shutdownExited, last_relaunch_t)
  else if relaunch_t = last_relaunch_t then
    (.shutdownStorm, last_relaunch_t)
  else if known then
    (.relaunch, relaunch_t)
  else
    (.shutdownUnknown, relaunch_t)

end Ckpool

namespace Ckpool

/-- Key computation lemma: while chunks remain available the read loop
keeps recv-ing (the select preceding each recv reports ready data, with a
zero timeout once a line is held), so when every chunk is nonempty the
loop ends having appended all chunks, returning a line iff the total
buffer contains a newline. -/
theorem rsl_loop_join (chunks : List (List Nat)) :
    ∀ buf eom, eom = findNL buf → (∀ c ∈ chunks, ¬c.isEmpty) →
    rsl_loop buf eom chunks =
      match findNL (buf ++ chunks.flatten) with
      | some i => RslRes.line (buf ++ chunks.flatten) i []
      | none => RslRes.timeo (buf ++ chunks.flatten) [] := by
  induction chunks with
  | nil =>
      intro buf eom heom _
      subst heom
      simp only [List.flatten_nil, List.append_nil]
      cases h : findNL buf <;> simp [rsl_loop, h]
  | cons c rest ih =>
      intro buf eom heom hall
      have hc : ¬c.isEmpty := hall c (List.mem_cons_self c rest)
      have hrest : ∀ d ∈ rest, ¬d.isEmpty := fun d hd => hall d (List.mem_cons_of_mem c hd)
      have hstep : rsl_loop buf eom (c :: rest) =
          rsl_loop (buf ++ c) (findNL (buf ++ c)) rest := by
        cases heq : eom <;> simp [rsl_loop, hc]
      rw [hstep, ih (buf ++ c) (findNL (buf ++ c)) rfl hrest]
      simp [List.append_assoc]

/-- Evaluation of read_socket_line when every available chunk is nonempty
(no recv failure): the result is determined by the entry buffer and the
concatenation of the chunks. -/
theorem read_socket_line_eval (cs : connsock) (chunks : List (List Nat))
    (hfd : ¬cs.fd < 0) (hall : ∀ c ∈ chunks, ¬c.isEmpty)
    (heom : (rsl_entry cs).2 = findNL (rsl_entry cs).1) :
    read_socket_line cs chunks =
      match findNL ((rsl_entry cs).1 ++ chunks.flatten) with
      | some i =>
          ((i : Int),
           { fd := cs.fd, buf := ((rsl_entry cs).1 ++ chunks.flatten).set i 0,
             bufofs :=
               if ((rsl_entry cs).1 ++ chunks.flatten).length - i - 1 ≠ 0 then i + 1
               else 0,
             buflen := ((rsl_entry cs).1 ++ chunks.flatten).length - i - 1 },
           [])
      | none =>
          (0,
           { fd := cs.fd, buf := (rsl_entry cs).1 ++ chunks.flatten,
             bufofs := ((rsl_entry cs).1 ++ chunks.flatten).length, buflen := 0 },
           []) := by
  unfold read_socket_line
  rw [if_neg hfd, rsl_loop_join chunks (rsl_entry cs).1 (rsl_entry cs).2 heom hall]
  cases h : findNL ((rsl_entry cs).1 ++ chunks.flatten) <;> simp


/-- C1: read_socket_line returns the text up to the first newline with
that byte replaced by a NUL terminator and preserves the bytes received
after the newline: buflen is set to the number of carry-over bytes and
bufofs to the offset where they begin, and on the next call they are
relocated to the start of the buffer before any new read.  Hence on the
input A newline B newline C delivered in arbitrary chunk boundaries,
successive calls return A (ret 1, line byte 65), then B, then block
(ret 0) awaiting more input, and return C once a newline arrives. -/
theorem read_socket_line_carryover (chunks chunks2 : List (List Nat))
    (h1 : ∀ c ∈ chunks, ¬c.isEmpty)
    (h2 : chunks.flatten = [65, 10, 66, 10, 67])
    (h3 : ∀ c ∈ chunks2, ¬c.isEmpty)
    (h4 : chunks2.flatten = [10]) :
    (∀ (cs : connsock) (i : Nat), 0 ≤ cs.fd → cs.buflen ≠ 0 →
        findNL ((cs.buf.drop cs.bufofs).take cs.buflen) = some i →
        read_socket_line cs [] =
          ((i : Int),
           { fd := cs.fd,
             buf := ((cs.buf.drop cs.bufofs).take cs.buflen).set i 0,
             bufofs :=
               if ((cs.buf.drop cs.bufofs).take cs.buflen).length - i - 1 ≠ 0 then
                 i + 1
               else 0,
             buflen := ((cs.buf.drop cs.bufofs).take cs.buflen).length - i - 1 },
           []))
    ∧ read_socket_line ⟨3, [], 0, 0⟩ chunks
        = (1, ⟨3, [65, 0, 66, 10, 67], 2, 3⟩, [])
    ∧ read_socket_line ⟨3, [65, 0, 66, 10, 67], 2, 3⟩ []
        = (1, ⟨3, [66, 0, 67], 2, 1⟩, [])
    ∧ read_socket_line ⟨3, [66, 0, 67], 2, 1⟩ []
        = (0, ⟨3, [67], 1, 0⟩, [])
    ∧ read_socket_line ⟨3, [67], 1, 0⟩ chunks2
        = (1, ⟨3, [67, 0], 0, 0⟩, []) := by
  refine ⟨?_, ?_, ?_, ?_, ?_⟩
  · intro cs i hfd hbl heom
    have hfd2 : ¬cs.fd < 0 := not_lt.mpr hfd
    have hentry : rsl_entry cs =
        ((cs.buf.drop cs.bufofs).take cs.buflen,
         findNL ((cs.buf.drop cs.bufofs).take cs.buflen)) := by
      simp [rsl_entry, hbl]
    have h := read_socket_line_eval cs [] hfd2 (by simp) (by rw [hentry])
    rw [hentry] at h
    simp only [List.flatten_nil, List.append_nil] at h
    rw [heom] at h
    simpa using h
  · have r1 := read_socket_line_eval ⟨3, [], 0, 0⟩ chunks (by norm_num) h1 (by decide)
    rw [h2] at r1
    rw [r1]
    decide
  · decide
  · decide
  · have r4 := read_socket_line_eval ⟨3, [67], 1, 0⟩ chunks2 (by norm_num) h3 (by decide)
    rw [h4] at r4
    rw [r4]
    decide

/-- C1 witness: the theorem applied to a concrete chunking of the input. -/
theorem read_socket_line_carryover_witness :
    read_socket_line ⟨3, [], 0, 0⟩ [[65, 10], [66, 10, 67]]
        = (1, ⟨3, [65, 0, 66, 10, 67], 2, 3⟩, [])
    ∧ read_socket_line ⟨3, [65, 0, 66, 10, 67], 2, 3⟩ []
        = (1, ⟨3, [66, 0, 67], 2, 1⟩, [])
    ∧ read_socket_line ⟨3, [66, 0, 67], 2, 1⟩ []
        = (0, ⟨3, [67], 1, 0⟩, [])
    ∧ read_socket_line ⟨3, [67], 1, 0⟩ [[10]]
        = (1, ⟨3, [67, 0], 0, 0⟩, []) :=
  (read_socket_line_carryover [[65, 10], [66, 10, 67]] [[10]]
      (by decide) (by decide) (by decide) (by decide)).2

/-- C2 counterexample: a call that times out without a complete line
returns 0 but leaves the socket open; at fd 5 with no data available the
result is 0 and fd is still 5, so the socket is neither closed nor set
invalid in the timeout case, contrary to the claim. -/
theorem read_socket_line_timeout_counterexample :
    (read_socket_line ⟨5, [], 0, 0⟩ []).1 = 0
    ∧ ((read_socket_line ⟨5, [], 0, 0⟩ []).2.1).fd = 5 := by decide

/-- C2 (amended): on a read error (recv returning at most 0, so ret = -1)
the buffer is freed, the socket is closed and fd is set to -1; on a
select timeout without a complete line the function returns 0 and the
socket stays open with fd unchanged. -/
theorem read_socket_line_error_close (cs : connsock) (rest : List (List Nat))
    (hfd : 0 < cs.fd) :
    ((read_socket_line cs ([] :: rest)).1 = -1
      ∧ ((read_socket_line cs ([] :: rest)).2.1).fd = -1
      ∧ ((read_socket_line cs ([] :: rest)).2.1).buf = [])
    ∧ (cs.buflen = 0 →
        (read_socket_line cs []).1 = 0
          ∧ ((read_socket_line cs []).2.1).fd = cs.fd) := by
  have hfd2 : ¬cs.fd < 0 := by omega
  constructor
  · have hloop : ∀ (b : List Nat) (e : Option Nat),
        rsl_loop b e ([] :: rest) = .rerr b rest := by
      intro b e; cases e <;> simp [rsl_loop]
    unfold read_socket_line
    rw [if_neg hfd2, hloop]
    simp [hfd]
  · intro hbl
    have hentry : rsl_entry cs = (cs.buf.take cs.bufofs, none) := by
      simp [rsl_entry, hbl]
    unfold read_socket_line
    rw [if_neg hfd2, hentry]
    simp [rsl_loop]

/-- C2 amended witness: both branches at a concrete connsock. -/
theorem read_socket_line_error_close_witness :
    ((read_socket_line ⟨5, [], 0, 0⟩ [[]]).1 = -1
      ∧ ((read_socket_line ⟨5, [], 0, 0⟩ [[]]).2.1).fd = -1
      ∧ ((read_socket_line ⟨5, [], 0, 0⟩ [[]]).2.1).buf = [])
    ∧ ((read_socket_line ⟨5, [], 0, 0⟩ []).1 = 0
      ∧ ((read_socket_line ⟨5, [], 0, 0⟩ []).2.1).fd = 5) :=
  ⟨(read_socket_line_error_close ⟨5, [], 0, 0⟩ [] (by decide)).1,
   (read_socket_line_error_close ⟨5, [], 0, 0⟩ [] (by decide)).2 rfl⟩

/-- One consumer wakeup preserves the queue invariant. -/
theorem ckmsg_queue_step_invariant {α : Type} (q : QState α)
    (h : q.enqueued = q.delivered ++ q.msgs) :
    (ckmsg_queue_step q).enqueued
      = (ckmsg_queue_step q).delivered ++ (ckmsg_queue_step q).msgs := by
  rcases q with ⟨msgs, enq, del⟩
  cases msgs with
  | nil => simpa [ckmsg_queue_step] using h
  | cons m ms =>
      simp only [ckmsg_queue_step] at h ⊢
      rw [h]
      simp

/-- Any interleaving of enqueues and wakeups preserves the invariant that
the enqueue history equals the delivery history followed by the pending
messages. -/
theorem runQ_invariant {α : Type} (evs : List (QEvent α)) :
    ∀ q : QState α, q.enqueued = q.delivered ++ q.msgs →
      (runQ q evs).enqueued = (runQ q evs).delivered ++ (runQ q evs).msgs := by
  induction evs with
  | nil => intro q h; simpa [runQ] using h
  | cons e rest ih =>
      intro q h
      cases e with
      | enq a =>
          simp only [runQ]
          exact ih (ckmsgq_add q a) (by simp [ckmsgq_add, h, List.append_assoc])
      | wake =>
          simp only [runQ]
          exact ih (ckmsg_queue_step q) (ckmsg_queue_step_invariant q h)

/-- C3: for every interleaving of producer enqueues and consumer wakeups
on one MsgQueue starting empty, the delivery history followed by the
pending list equals the enqueue history; so deliveries happen in exact
enqueue (FIFO) order with no payload duplicated, dropped or reordered,
and once the queue has drained every enqueued payload has been delivered
exactly once. -/
theorem ckmsgq_fifo (α : Type) (evs : List (QEvent α)) :
    (runQ (⟨[], [], []⟩ : QState α) evs).enqueued
        = (runQ (⟨[], [], []⟩ : QState α) evs).delivered
            ++ (runQ (⟨[], [], []⟩ : QState α) evs).msgs
    ∧ ((runQ (⟨[], [], []⟩ : QState α) evs).msgs = [] →
        (runQ (⟨[], [], []⟩ : QState α) evs).delivered
          = (runQ (⟨[], [], []⟩ : QState α) evs).enqueued) := by
  have h := runQ_invariant evs (⟨[], [], []⟩ : QState α) (by simp)
  exact ⟨h, fun hm => by rw [h, hm, List.append_nil]⟩

/-- C3 witness: a drained concrete interleaving delivers everything in
enqueue order. -/
theorem ckmsgq_fifo_witness :
    (runQ (⟨[], [], []⟩ : QState Nat)
        [QEvent.enq 1, QEvent.enq 2, QEvent.wake, QEvent.enq 3,
         QEvent.wake, QEvent.wake]).msgs = []
    ∧ (runQ (⟨[], [], []⟩ : QState Nat)
        [QEvent.enq 1, QEvent.enq 2, QEvent.wake, QEvent.enq 3,
         QEvent.wake, QEvent.wake]).delivered
      = (runQ (⟨[], [], []⟩ : QState Nat)
        [QEvent.enq 1, QEvent.enq 2, QEvent.wake, QEvent.enq 3,
         QEvent.wake, QEvent.wake]).enqueued :=
  ⟨by decide,
   (ckmsgq_fifo Nat
      [QEvent.enq 1, QEvent.enq 2, QEvent.wake, QEvent.enq 3,
       QEvent.wake, QEvent.wake]).2 (by decide)⟩

/-- C8: kill_pid returns -1 for every pid below 1 and every signal
without invoking the kill system call, so no kill_pid caller in the
supervisor can signal pid 0 or a negative pid (a process group). -/
theorem kill_pid_guards (sys : Int → Int → Int) (pid sig : Int)
    (h : pid < 1) :
    kill_pid_call sys pid sig = (-1, false) ∧ kill_pid sys pid sig = -1 := by
  constructor <;> simp [kill_pid_call, kill_pid, h]

/-- C8 witness: pid 0 with SIGKILL is refused without a system call. -/
theorem kill_pid_guards_witness :
    kill_pid_call (fun _ _ => 0) 0 9 = (-1, false)
    ∧ kill_pid (fun _ _ => 0) 0 9 = -1 :=
  kill_pid_guards (fun _ _ => 0) 0 9 (by decide)


/-- Membership in the action list of __shutdown_children: the watchdog
cancel plus one signal per child passing the kill_pid liveness probe. -/
theorem mem_shutdown_children_acts (pids : List Int) (alive : Int → Bool)
    (sig : Int) (a : TAct) :
    a ∈ shutdown_children_acts pids alive sig ↔
      a = TAct.cancelJoin "watchdog"
      ∨ ∃ pid ∈ pids,
          kill_pid (fun p _ => if alive p then 0 else -1) pid 0 = 0
          ∧ a = TAct.signalChild pid sig := by
  simp only [shutdown_children_acts, List.mem_cons, List.mem_flatMap]
  constructor
  · rintro (h | ⟨pid, hpid, hmem⟩)
    · exact Or.inl h
    · refine Or.inr ⟨pid, hpid, ?_⟩
      by_cases hc : kill_pid (fun p _ => if alive p then 0 else -1) pid 0 = 0
      · rw [if_pos hc] at hmem
        simp at hmem
        exact ⟨hc, hmem⟩
      · rw [if_neg hc] at hmem
        simp at hmem
  · rintro (h | ⟨pid, hpid, hc, ha⟩)
    · exact Or.inl h
    · exact Or.inr ⟨pid, hpid, by rw [if_pos hc]; simp [ha]⟩

/-- C4 counterexample: the sighandler teardown at a concrete
configuration (children 101 102 103 all alive, SIGTERM received)
performs no file deletion at all, so in particular the supervisor pid
file is not removed on the signal path, contrary to the claim. -/
theorem sighandler_no_unlink_counterexample :
    TAct.unlink "/tmp/ckpool/main.pid"
        ∉ sighandler_acts [101, 102, 103] (fun _ => true) (fun _ => true) SIGTERM
    ∧ (sighandler_acts [101, 102, 103] (fun _ => true) (fun _ => true)
        SIGTERM).filter isUnlink = [] := by decide

/-- C4 (amended): on SIGTERM or SIGINT the supervisor ignores further
signals, cancels and joins the watchdog, sends SIGUSR1 to every live
child with pid at least 1, sleeps one second, sends SIGKILL to the
children still alive, cancels the listener thread and exits with code 0;
it deletes no pid file and no socket node.  The supervisor pid file
(process name main) is removed only by clean_up on the
listener-initiated shutdown path. -/
theorem sighandler_teardown (pids : List Int) (alive1 alive2 : Int → Bool)
    (sig : Int) (sockdir : String) :
    (∀ path, TAct.unlink path ∉ sighandler_acts pids alive1 alive2 sig)
    ∧ (∀ pid ∈ pids, 1 ≤ pid → alive1 pid = true →
        TAct.signalChild pid SIGUSR1 ∈ sighandler_acts pids alive1 alive2 sig)
    ∧ (∀ pid ∈ pids, 1 ≤ pid → alive2 pid = true →
        TAct.signalChild pid SIGKILL ∈ sighandler_acts pids alive1 alive2 sig)
    ∧ (∃ pre, sighandler_acts pids alive1 alive2 sig
        = pre ++ [TAct.cancelOnly "listener", TAct.exitCode 0])
    ∧ clean_up_acts sockdir
        = [TAct.unlink (sockdir ++ "main" ++ ".pid"), TAct.deallocState] := by
  refine ⟨?_, ?_, ?_, ?_, rfl⟩
  · intro path
    simp [sighandler_acts, List.mem_append, mem_shutdown_children_acts]
  · intro pid hpid h1 halive
    have hprobe : kill_pid (fun p _ => if alive1 p then 0 else -1) pid 0 = 0 := by
      unfold kill_pid kill_pid_call
      rw [if_neg (by omega)]
      simp [halive]
    have hmem : TAct.signalChild pid SIGUSR1
        ∈ shutdown_children_acts pids alive1 SIGUSR1 :=
      (mem_shutdown_children_acts pids alive1 SIGUSR1 _).mpr
        (Or.inr ⟨pid, hpid, hprobe, rfl⟩)
    simp only [sighandler_acts, List.mem_append, List.mem_cons]
    tauto
  · intro pid hpid h1 halive
    have hprobe : kill_pid (fun p _ => if alive2 p then 0 else -1) pid 0 = 0 := by
      unfold kill_pid kill_pid_call
      rw [if_neg (by omega)]
      simp [halive]
    have hmem : TAct.signalChild pid SIGKILL
        ∈ shutdown_children_acts pids alive2 SIGKILL :=
      (mem_shutdown_children_acts pids alive2 SIGKILL _).mpr
        (Or.inr ⟨pid, hpid, hprobe, rfl⟩)
    simp only [sighandler_acts, List.mem_append, List.mem_cons]
    tauto
  · refine ⟨[TAct.ignoreSig sig, TAct.ignoreSig SIGTERM,
        TAct.cancelJoin "watchdog"]
        ++ shutdown_children_acts pids alive1 SIGUSR1
        ++ [TAct.sleepSec 1]
        ++ shutdown_children_acts pids alive2 SIGKILL, ?_⟩
    simp [sighandler_acts, List.append_assoc]

/-- C4 amended witness: a live child receives SIGUSR1 in the concrete
teardown trace and the trace ends by exiting 0. -/
theorem sighandler_teardown_witness :
    TAct.signalChild 101 SIGUSR1
        ∈ sighandler_acts [101, 102, 103] (fun _ => true) (fun _ => false) SIGTERM
    ∧ ∃ pre, sighandler_acts [101, 102, 103] (fun _ => true) (fun _ => false)
        SIGTERM = pre ++ [TAct.cancelOnly "listener", TAct.exitCode 0] :=
  ⟨(sighandler_teardown [101, 102, 103] (fun _ => true) (fun _ => false)
      SIGTERM "/tmp/ckpool/").2.1 101 (by decide) (by decide) rfl,
   (sighandler_teardown [101, 102, 103] (fun _ => true) (fun _ => false)
      SIGTERM "/tmp/ckpool/").2.2.2.1⟩

/-- C5: order sensitivity of the exclusion between solo and proxy
passthrough modes.  The switch rejects -p followed by -B and -P followed
by -B with exit code 1, but accepts -B followed by -p (and -B followed
by -P), leaving btcsolo and proxy both set; so the claim that every
combination requesting both modes is rejected is refuted at the concrete
command line -B -p, and the intent documented by the quit message of
case B (no proxy together with btcsolo) is violated by the code. -/
theorem parse_opts_btcsolo_conflict :
    parse_opts {} [Opt.B, Opt.p]
        = Except.ok { standalone := true, btcsolo := true, proxy := true }
    ∧ parse_opts {} [Opt.B, Opt.P]
        = Except.ok
            { standalone := true, btcsolo := true, proxy := true,
              passthrough := true }
    ∧ parse_opts {} [Opt.p, Opt.B] = Except.error 1
    ∧ parse_opts {} [Opt.P, Opt.B] = Except.error 1 :=
  ⟨rfl, rfl, rfl, rfl⟩

/-- C6: when the pid file exists and names a live pid, write_pid with
killold unset fails and write_namepid quits with exit code 1; with
killold set, the old pid is sent SIGKILL and, when the kill and the
reopen for writing succeed, the file is overwritten with the new pid and
startup proceeds. -/
theorem write_pid_live_old (killold : Bool) (env : PidEnv) (pid oldpid : Int)
    (hex : env.fileExists = true) (hro : env.openReadOk = true)
    (hpid : env.filePid = some oldpid)
    (halive : kill_pid env.sys oldpid 0 = 0) :
    (killold = false →
        write_pid killold env pid = ⟨false, none, none⟩
        ∧ write_namepid killold env pid = Except.error 1)
    ∧ (killold = true → env.sys oldpid SIGKILL = 0 → env.openWriteOk = true →
        write_pid killold env pid = ⟨true, some pid, some oldpid⟩
        ∧ write_namepid killold env pid
            = Except.ok ⟨true, some pid, some oldpid⟩) := by
  have hge : ¬oldpid < 1 := by
    intro hlt
    rw [kill_pid, kill_pid_call, if_pos hlt] at halive
    simp at halive
  constructor
  · intro hk
    subst hk
    have h1 : write_pid false env pid = ⟨false, none, none⟩ := by
      simp [write_pid, hex, hro, hpid, halive]
    exact ⟨h1, by simp [write_namepid, h1]⟩
  · intro hk hkill hwo
    subst hk
    have hk9 : kill_pid env.sys oldpid SIGKILL = 0 := by
      rw [kill_pid, kill_pid_call, if_neg hge]
      exact hkill
    have h2 : write_pid true env pid = ⟨true, some pid, some oldpid⟩ := by
      simp [write_pid, hex, hro, hpid, halive, hk9, write_pid_finish, hwo]
    exact ⟨h2, by simp [write_namepid, h2]⟩

/-- C6 witness: live old pid 7, killold set, new pid 42 overwrites. -/
theorem write_pid_live_old_witness :
    write_pid true
        { fileExists := true, openReadOk := true, filePid := some 7,
          openWriteOk := true, sys := fun p _ => if p = 7 then 0 else -1 } 42
      = ⟨true, some 42, some 7⟩
    ∧ write_namepid true
        { fileExists := true, openReadOk := true, filePid := some 7,
          openWriteOk := true, sys := fun p _ => if p = 7 then 0 else -1 } 42
      = Except.ok ⟨true, some 42, some 7⟩ :=
  (write_pid_live_old true
      { fileExists := true, openReadOk := true, filePid := some 7,
        openWriteOk := true, sys := fun p _ => if p = 7 then 0 else -1 }
      42 7 rfl rfl rfl (by decide)).2 rfl (by decide) rfl

/-- C7: the watchdog respawn-storm brake.  When a child died (not a
normal WIFEXITED exit) and the wall-clock second of the pending respawn
equals the second of the last recorded respawn, the watchdog shuts down
with an emergency instead of relaunching; otherwise a known crashed
child is relaunched and the relaunch timestamp is recorded. -/
theorem watchdog_storm_brake (known wifexited : Bool)
    (relaunch_t last_relaunch_t : Int) (hcrash : wifexited = false) :
    (relaunch_t = last_relaunch_t →
        watchdog_step known wifexited relaunch_t last_relaunch_t
          = (WatchdogOut.shutdownStorm, last_relaunch_t))
    ∧ (known = true → relaunch_t ≠ last_relaunch_t →
        watchdog_step known wifexited relaunch_t last_relaunch_t
          = (WatchdogOut.relaunch, relaunch_t)) := by
  subst hcrash
  constructor
  · intro heq
    simp [watchdog_step, heq]
  · intro hkn hne
    simp [watchdog_step, hkn, hne]

/-- C7 witness: same-second crash brakes, next-second crash relaunches. -/
theorem watchdog_storm_brake_witness :
    watchdog_step true false 1000 1000 = (WatchdogOut.shutdownStorm, 1000)
    ∧ watchdog_step true false 1001 1000 = (WatchdogOut.relaunch, 1001) :=
  ⟨(watchdog_storm_brake true false 1000 1000 rfl).1 rfl,
   (watchdog_storm_brake true false 1001 1000 rfl).2 rfl (by decide)⟩

/-- C9: when the pid file exists but its content is unparseable or names
a pid whose kill probe fails (dead), write_pid overwrites the file with
the new pid and returns true regardless of killold, and write_namepid
does not abort startup. -/
theorem write_pid_stale_dead (killold : Bool) (env : PidEnv) (pid : Int)
    (hex : env.fileExists = true) (hro : env.openReadOk = true)
    (hwo : env.openWriteOk = true)
    (hdead : env.filePid = none
      ∨ ∃ old, env.filePid = some old ∧ kill_pid env.sys old 0 ≠ 0) :
    write_pid killold env pid = ⟨true, some pid, none⟩
    ∧ write_namepid killold env pid = Except.ok ⟨true, some pid, none⟩ := by
  have h1 : write_pid killold env pid = ⟨true, some pid, none⟩ := by
    rcases hdead with hnone | ⟨old, hsome, hdead2⟩
    · simp [write_pid, hex, hro, hnone, write_pid_finish, hwo]
    · simp [write_pid, hex, hro, hsome, hdead2, write_pid_finish, hwo]
  exact ⟨h1, by simp [write_namepid, h1]⟩

/-- C9 witness: a dead stale pid 7 is overwritten without killold. -/
theorem write_pid_stale_dead_witness :
    write_pid false
        { fileExists := true, openReadOk := true, filePid := some 7,
          openWriteOk := true, sys := fun _ _ => -1 } 42
      = ⟨true, some 42, none⟩
    ∧ write_namepid false
        { fileExists := true, openReadOk := true, filePid := some 7,
          openWriteOk := true, sys := fun _ _ => -1 } 42
      = Except.ok ⟨true, some 42, none⟩ :=
  write_pid_stale_dead false
      { fileExists := true, openReadOk := true, filePid := some 7,
        openWriteOk := true, sys := fun _ _ => -1 }
      42 rfl rfl rfl (Or.inr ⟨7, rfl, by decide⟩)

/-- C10: when handling a getfd request fails at either stage, that is
send_procmsg to the connector returns no socket (connfd at most 0) or
get_fd yields no valid descriptor (newfd at most 0), the listener sends
no framed reply and no ancillary fd, closes the accepted connection and
loops to accept further requests. -/
theorem listener_getfd_failure (sockd connfd newfd : Int)
    (scanned : Option Int) (hfail : connfd ≤ 0 ∨ newfd ≤ 0) :
    (∀ m, LAct.sendMsg m
        ∉ (listener_handle sockd (some "getfd") connfd newfd scanned).1)
    ∧ (∀ f, LAct.sendFdA f
        ∉ (listener_handle sockd (some "getfd") connfd newfd scanned).1)
    ∧ (listener_handle sockd (some "getfd") connfd newfd scanned).2 = true
    ∧ LAct.closeFd sockd
        ∈ (listener_handle sockd (some "getfd") connfd newfd scanned).1 := by
  have hsd : cmdmatch "getfd" "shutdown" = false := by decide
  have hpg : cmdmatch "getfd" "ping" = false := by decide
  have hll : cmdmatch "getfd" "loglevel" = false := by decide
  have hgf : cmdmatch "getfd" "getfd" = true := by decide
  rcases hfail with hc | hn
  · have hcc : ¬connfd > 0 := by omega
    simp [listener_handle, hsd, hpg, hll, hgf, hcc]
  · by_cases hcc : connfd > 0
    · have hnn : ¬newfd > 0 := by omega
      simp [listener_handle, hsd, hpg, hll, hgf, hcc, hnn]
    · simp [listener_handle, hsd, hpg, hll, hgf, hcc]

/-- C10 witness: a failed send_procmsg yields only the close of the
accepted socket and the listener keeps looping. -/
theorem listener_getfd_failure_witness :
    LAct.closeFd 4 ∈ (listener_handle 4 (some "getfd") (-1) (-1) none).1
    ∧ (listener_handle 4 (some "getfd") (-1) (-1) none).2 = true :=
  ⟨(listener_getfd_failure 4 (-1) (-1) none (Or.inl (by decide))).2.2.2,
   (listener_getfd_failure 4 (-1) (-1) none (Or.inl (by decide))).2.2.1⟩

end Ckpool
